import Mathlib

/-!
Verification of the `runalyze` command-line uploader.

The Python program is shallowly embedded as pure Lean functions.  All
side effects (console prints, HTTP requests, clipboard writes, config
file writes) are reified as an `Event` trace; the outside world (the
config file's state, the HTTP responses the server would return, which
local files exist) is passed in explicitly as oracles.  Python
exceptions that the source catches become constructors of the oracle
types; an uncaught exception (e.g. `response.json()` failing) is
modelled by a `crashed` flag, and `exit(n)` by returning the exit code.

JSON response bodies are modelled as association lists of string keys
to string values (every value the claims concern is a string); Python's
`dict.get` becomes an `Option`-valued lookup, and Python's rendering of
`None` inside an f-string becomes the literal text `"None"`.
-/

set_option autoImplicit false

namespace Runalyze

/-- An observable effect of the program, in the order it happens. -/
inductive Event where
  /-- A line printed to the console. -/
  | print (s : String)
  /-- `pyperclip.copy`: the string written to the system clipboard. -/
  | clipboardCopy (s : String)
  /-- `pyperclip.set_clipboard`: clipboard backend selection. -/
  | setClipboardBackend (backend : String)
  /-- `requests.get url` with a `token` header (`none` models Python `None`). -/
  | httpGet (url : String) (tokenHeader : Option String)
  /-- `requests.post` of a multipart file upload with a `token` header. -/
  | httpPost (url : String) (tokenHeader : Option String) (fileName : String)
  /-- `Path(...).mkdir(parents=True, exist_ok=True)` on the config directory. -/
  | mkdirParents (dir : String)
  /-- `json.dump` of the config object to the config file. -/
  | writeConfig (path : String) (obj : List (String × String))
  /-- Marker: the function `verify_upload` is entered with this queue id. -/
  | verifyCall (queue_id : String)
  /-- Marker: the function `upload_file` is entered with this file path. -/
  | uploadCall (file_path : String)
  deriving DecidableEq, Repr

/-- A parsed JSON object: string keys mapped to string values. -/
abbrev JsonObj := List (String × String)

/-- Python `dict.get k`: the first value stored under key `k`, if any. -/
def pyGet (obj : JsonObj) (k : String) : Option String :=
  (obj.find? (fun p => p.1 == k)).map (fun p => p.2)

/-- Python `str` applied to a value that may be `None`:
`None` renders as the literal text `"None"`. -/
def pyStr : Option String → String
  | some s => s
  | none => "None"

/-- Python truthiness of an optional string: `None` and `""` are falsy.
This is the test `if x:` performed by the source on `args.token`,
`args.config`, `args.verify` and `queue_id`. -/
def truthy : Option String → Bool
  | none => false
  | some s => s != ""

/-- Python `str` of a dict, as printed by `print(f"Response: {upload_data}")`. -/
def pyDictStr (obj : JsonObj) : String :=
  "\x7b" ++ String.intercalate ", "
    (obj.map (fun p => "\x27" ++ p.1 ++ "\x27: \x27" ++ p.2 ++ "\x27")) ++ "\x7d"

/-- `os.path.basename`: the part after the last `/`. -/
def basename (p : String) : String :=
  (p.splitOn "/").getLastD p

/-- `Path(p).parent`, rendered as a string: everything before the last `/`. -/
def parentDir (p : String) : String :=
  String.intercalate "/" (p.splitOn "/").dropLast

/-- The fixed activities endpoint of the source. -/
def API_ACTIVITIES_URL : String := "https://runalyze.com/api/v1/activities/uploads"

/-- An HTTP response: status code, the result of `response.json()`
(`none` models a body that is not valid JSON, so `.json()` raises),
and `response.text`. -/
structure HttpResponse where
  status_code : Nat
  jsonBody : Option JsonObj
  text : String
  deriving DecidableEq, Repr

/-- Outcome of one `requests` call: a response, or a raised
`requests.exceptions.RequestException` with its message. -/
inductive RequestResult where
  | success (response : HttpResponse)
  | requestException (msg : String)
  deriving DecidableEq, Repr

/-- State of the config file at its path:
missing (`FileNotFoundError`), unparseable (`json.JSONDecodeError`),
or a parsed JSON object. -/
inductive ConfigState where
  | missing
  | invalidJson
  | valid (obj : JsonObj)
  deriving DecidableEq, Repr

/-- Result of `load_token`: the process exited with a code, or the
function returned a token value (possibly Python `None`). -/
inductive LoadResult where
  | exited (code : Nat)
  | token (t : Option String)
  deriving DecidableEq, Repr

/-- `load_token(config_file, silent)` from the source: read the config
file, print a notice unless silent, and return `config.get("token")`;
on a missing file or invalid JSON, print an error and `exit(1)`. -/
def load_token (config_file : String) (cfg : ConfigState) (silent : Bool) :
    List Event × LoadResult :=
  match cfg with
  | ConfigState.missing =>
      ([Event.print ("Configuration file not found at " ++ config_file ++ "."),
        Event.print "Please create the configuration file with your API token."],
       LoadResult.exited 1)
  | ConfigState.invalidJson =>
      ([Event.print ("Configuration file at " ++ config_file ++ " is not valid JSON.")],
       LoadResult.exited 1)
  | ConfigState.valid config =>
      ((if silent then [] else [Event.print ("Token loaded from " ++ config_file ++ ".")]),
       LoadResult.token (pyGet config "token"))

/-- `save_token(config_file, token, silent)` from the source: create the
parent directories, write `{"token": token}` to the file, and print a
notice unless silent. -/
def save_token (config_file : String) (token : String) (silent : Bool) : List Event :=
  [Event.mkdirParents (parentDir config_file),
   Event.writeConfig config_file [("token", token)]]
  ++ (if silent then [] else [Event.print ("Token saved to " ++ config_file ++ ".")])

/-- `verify_upload(queue_id, token, silent)` from the source, given the
outcome `net` of the GET to `{API_ACTIVITIES_URL}/{queue_id}`.  Returns
the event trace and whether an uncaught exception escaped (only
`response.json()` on a 200/201 body that is not JSON). -/
def verify_upload (queue_id : String) (token : Option String) (silent : Bool)
    (net : RequestResult) : List Event × Bool :=
  let entry := Event.verifyCall queue_id ::
    (if silent then [] else [Event.print ("Verifying upload with queue_id: " ++ queue_id)])
  let verification_url := API_ACTIVITIES_URL ++ "/" ++ queue_id
  match net with
  | RequestResult.requestException e =>
      (entry ++ [Event.httpGet verification_url token,
                 Event.print ("An error occurred during verification: " ++ e)], false)
  | RequestResult.success response =>
      let got := entry ++ [Event.httpGet verification_url token]
      if response.status_code = 200 ∨ response.status_code = 201 then
        match response.jsonBody with
        | none => (got, true)
        | some verification_data =>
          if pyGet verification_data "status" = some "successfully imported" then
            let activity_url :=
              "https://runalyze.com/activity/" ++ pyStr (pyGet verification_data "activity_id")
            (got ++ (if silent then [] else [Event.print activity_url])
                 ++ [Event.clipboardCopy activity_url], false)
          else
            (got ++ [Event.print ("Verification failed. Status: " ++
                       pyStr (pyGet verification_data "status"))], false)
      else
        (got ++ [Event.print ("Failed to verify upload. HTTP Status Code: " ++
                   toString response.status_code),
                 Event.print ("Response: " ++ response.text)], false)

/-- The world's answer to one `upload_file` call: the local file is
missing (`FileNotFoundError` on `open`), the POST raises a network
error, or the POST yields a response — together with the oracle for the
verification GET that may follow. -/
inductive FileOutcome where
  | notFound
  | netError (msg : String)
  | response (response : HttpResponse) (verifyNet : RequestResult)
  deriving DecidableEq, Repr

/-- `upload_file(file_path, token, dryrun, silent)` from the source,
given the world's outcome `w` for this file.  Returns the event trace
and the uncaught-exception flag. -/
def upload_file (file_path : String) (token : Option String) (dryrun silent : Bool)
    (w : FileOutcome) : List Event × Bool :=
  let entry := Event.uploadCall file_path ::
    (if silent then [] else [Event.print ("Uploading file: " ++ file_path)])
  if dryrun then (entry, false)
  else
    match w with
    | FileOutcome.notFound =>
        (entry ++ [Event.print ("Error: File not found: " ++ file_path)], false)
    | FileOutcome.netError e =>
        (entry ++ [Event.httpPost API_ACTIVITIES_URL token (basename file_path),
                   Event.print ("An error occurred: " ++ e)], false)
    | FileOutcome.response response verifyNet =>
        let posted := entry ++ [Event.httpPost API_ACTIVITIES_URL token (basename file_path)]
        if response.status_code = 200 ∨ response.status_code = 201 then
          match response.jsonBody with
          | none => (posted, true)
          | some upload_data =>
            let succ : List Event :=
              if silent then [] else
                [Event.print ("Successfully uploaded: " ++ file_path),
                 Event.print ("Response: " ++ pyDictStr upload_data)]
            let queue_id := pyGet upload_data "queue_id"
            if truthy queue_id then
              let v := verify_upload (pyStr queue_id) token silent verifyNet
              (posted ++ succ ++ v.1, v.2)
            else
              (posted ++ succ ++
                 [Event.print "No queue_id returned. Unable to verify upload."], false)
        else
          (posted ++ [Event.print ("Failed to upload " ++ file_path ++
                        ". HTTP Status Code: " ++ toString response.status_code)]
                  ++ (if silent then [] else [Event.print ("Response: " ++ response.text)]),
           false)

/-- The `for file_path in args.files` loop of `main`: run `upload_file`
on each file in order; an uncaught exception aborts the loop. -/
def processFiles (token : Option String) (dryrun silent : Bool)
    (world : String → FileOutcome) : List String → List Event × Bool
  | [] => ([], false)
  | f :: rest =>
    let r := upload_file f token dryrun silent (world f)
    if r.2 then (r.1, true)
    else
      let rr := processFiles token dryrun silent world rest
      (r.1 ++ rr.1, rr.2)

/-- The parsed command-line arguments of the source's `argparse` setup.
`token`, `config` and `verify` are `none` when the flag is absent. -/
structure Args where
  files : List String
  dryrun : Bool
  silent : Bool
  token : Option String
  config : Option String
  verify : Option String
  deriving DecidableEq, Repr

/-- `Path.home() / ".config" / "runalyze" / "config.json"`. -/
def default_config_file (home : String) : String :=
  home ++ "/.config/runalyze/config.json"

/-- The tail of `main` after the token is resolved: clipboard backend
setup, the standalone `--verify` branch, the no-files check, and the
upload loop.  `ev0` is the trace accumulated so far.  An uncaught
Python exception makes the process exit 1. -/
def mainRest (args : Args) (token : Option String) (ev0 : List Event)
    (display : Bool) (vnet : RequestResult) (world : String → FileOutcome) :
    List Event × Nat :=
  let ev1 := ev0 ++ (if display then [Event.setClipboardBackend "xclip"] else [])
  if truthy args.verify then
    let v := verify_upload (args.verify.getD "") token args.silent vnet
    (ev1 ++ v.1, if v.2 then 1 else 0)
  else if args.files = [] then
    (ev1 ++ [Event.print "No files specified for upload. Use -h for help."], 1)
  else
    let r := processFiles token args.dryrun args.silent world args.files
    (ev1 ++ r.1, if r.2 then 1 else 0)

/-- `main()` from the source.  `home` feeds the default config path,
`cfg` is the state of the config file at the resolved path, `display`
is whether `DISPLAY` is in the environment, `vnet` answers the
standalone verification GET, and `world` answers each file's upload. -/
def runMain (args : Args) (home : String) (cfg : ConfigState) (display : Bool)
    (vnet : RequestResult) (world : String → FileOutcome) : List Event × Nat :=
  let config_file :=
    if truthy args.config then args.config.getD "" else default_config_file home
  if truthy args.token then
    let t := args.token.getD ""
    let ev0 := if cfg = ConfigState.missing then save_token config_file t args.silent else []
    mainRest args (some t) ev0 display vnet world
  else
    match load_token config_file cfg args.silent with
    | (ev, LoadResult.exited c) => (ev, c)
    | (ev, LoadResult.token t) => mainRest args t ev display vnet world

/-! ### Classifiers for events and benign oracles -/

/-- Is this event an entry into `verify_upload`? -/
def isVerifyCall : Event → Bool
  | Event.verifyCall _ => true
  | _ => false

/-- Is this event an entry into `upload_file`? -/
def isUploadCall : Event → Bool
  | Event.uploadCall _ => true
  | _ => false

/-- Is this event an HTTP POST? -/
def isHttpPost : Event → Bool
  | Event.httpPost _ _ _ => true
  | _ => false

/-- Is this event a network call, a verifier invocation, or a clipboard
write — the side effects dry-run mode must not have? -/
def isNetEffect : Event → Bool
  | Event.httpGet _ _ => true
  | Event.httpPost _ _ _ => true
  | Event.verifyCall _ => true
  | Event.clipboardCopy _ => true
  | _ => false

/-- Is this event a console print? -/
def isPrint : Event → Bool
  | Event.print _ => true
  | _ => false

/-- The request outcome does not make `response.json()` raise: either the
call failed at the network layer, or a 200/201 response carries a
parseable JSON body. -/
def respParses : RequestResult → Prop
  | RequestResult.requestException _ => True
  | RequestResult.success r =>
      (r.status_code = 200 ∨ r.status_code = 201) → r.jsonBody ≠ none

/-- The per-file world outcome never makes `upload_file` raise an
uncaught exception: any caught failure kind, or responses whose bodies
parse when the code parses them. -/
def outcomeBenign : FileOutcome → Prop
  | FileOutcome.notFound => True
  | FileOutcome.netError _ => True
  | FileOutcome.response r v =>
      ((r.status_code = 200 ∨ r.status_code = 201) → r.jsonBody ≠ none) ∧ respParses v

/-! ### Structural lemmas about the traces -/

theorem verify_upload_crash_false (q : String) (tok : Option String) (s : Bool)
    (net : RequestResult) (h : respParses net) :
    (verify_upload q tok s net).2 = false := by
  cases net with
  | requestException e => rfl
  | success r =>
    by_cases h2 : r.status_code = 200 ∨ r.status_code = 201
    · cases hb : r.jsonBody with
      | none => exact absurd hb (h h2)
      | some obj =>
        by_cases hs : pyGet obj "status" = some "successfully imported" <;>
          simp [verify_upload, h2, hb, hs]
    · simp [verify_upload, h2]

theorem verify_upload_filter_verifyCall (q : String) (tok : Option String) (s : Bool)
    (net : RequestResult) :
    (verify_upload q tok s net).1.filter isVerifyCall = [Event.verifyCall q] := by
  cases net with
  | requestException e => cases s <;> simp [verify_upload, isVerifyCall]
  | success r =>
    by_cases h2 : r.status_code = 200 ∨ r.status_code = 201
    · cases hb : r.jsonBody with
      | none => cases s <;> simp [verify_upload, h2, hb, isVerifyCall]
      | some obj =>
        by_cases hs : pyGet obj "status" = some "successfully imported" <;>
          cases s <;> simp [verify_upload, h2, hb, hs, isVerifyCall]
    · cases s <;> simp [verify_upload, h2, isVerifyCall]

theorem verify_upload_filter_uploadCall (q : String) (tok : Option String) (s : Bool)
    (net : RequestResult) :
    (verify_upload q tok s net).1.filter isUploadCall = [] := by
  cases net with
  | requestException e => cases s <;> simp [verify_upload, isUploadCall]
  | success r =>
    by_cases h2 : r.status_code = 200 ∨ r.status_code = 201
    · cases hb : r.jsonBody with
      | none => cases s <;> simp [verify_upload, h2, hb, isUploadCall]
      | some obj =>
        by_cases hs : pyGet obj "status" = some "successfully imported" <;>
          cases s <;> simp [verify_upload, h2, hb, hs, isUploadCall]
    · cases s <;> simp [verify_upload, h2, isUploadCall]

theorem verify_upload_filter_httpPost (q : String) (tok : Option String) (s : Bool)
    (net : RequestResult) :
    (verify_upload q tok s net).1.filter isHttpPost = [] := by
  cases net with
  | requestException e => cases s <;> simp [verify_upload, isHttpPost]
  | success r =>
    by_cases h2 : r.status_code = 200 ∨ r.status_code = 201
    · cases hb : r.jsonBody with
      | none => cases s <;> simp [verify_upload, h2, hb, isHttpPost]
      | some obj =>
        by_cases hs : pyGet obj "status" = some "successfully imported" <;>
          cases s <;> simp [verify_upload, h2, hb, hs, isHttpPost]
    · cases s <;> simp [verify_upload, h2, isHttpPost]

theorem upload_file_crash_false (f : String) (tok : Option String) (d s : Bool)
    (w : FileOutcome) (h : outcomeBenign w) :
    (upload_file f tok d s w).2 = false := by
  cases d with
  | true => cases s <;> rfl
  | false =>
    cases w with
    | notFound => cases s <;> rfl
    | netError e => cases s <;> rfl
    | response r v =>
      by_cases h2 : r.status_code = 200 ∨ r.status_code = 201
      · cases hb : r.jsonBody with
        | none => exact absurd hb (h.1 h2)
        | some obj =>
          by_cases hq : truthy (pyGet obj "queue_id") = true
          · simp [upload_file, h2, hb, hq, verify_upload_crash_false _ _ _ _ h.2]
          · simp [upload_file, h2, hb, hq]
      · simp [upload_file, h2]

theorem upload_file_filter_uploadCall (f : String) (tok : Option String) (d s : Bool)
    (w : FileOutcome) :
    (upload_file f tok d s w).1.filter isUploadCall = [Event.uploadCall f] := by
  cases d with
  | true => cases s <;> simp [upload_file, isUploadCall]
  | false =>
    cases w with
    | notFound => cases s <;> simp [upload_file, isUploadCall]
    | netError e => cases s <;> simp [upload_file, isUploadCall]
    | response r v =>
      by_cases h2 : r.status_code = 200 ∨ r.status_code = 201
      · cases hb : r.jsonBody with
        | none => cases s <;> simp [upload_file, h2, hb, isUploadCall]
        | some obj =>
          by_cases hq : truthy (pyGet obj "queue_id") = true <;>
            cases s <;>
              simp [upload_file, h2, hb, hq, isUploadCall, verify_upload_filter_uploadCall]
      · cases s <;> simp [upload_file, h2, isUploadCall]

theorem processFiles_crash_false (tok : Option String) (d s : Bool)
    (world : String → FileOutcome) (fs : List String)
    (h : ∀ f ∈ fs, outcomeBenign (world f)) :
    (processFiles tok d s world fs).2 = false := by
  induction fs with
  | nil => rfl
  | cons f rest ih =>
    have hf : outcomeBenign (world f) := h f (List.mem_cons_self f rest)
    have hcrash := upload_file_crash_false f tok d s (world f) hf
    simp [processFiles, hcrash, ih (fun g hg => h g (List.mem_cons_of_mem f hg))]

theorem processFiles_filter_uploadCall (tok : Option String) (d s : Bool)
    (world : String → FileOutcome) (fs : List String)
    (h : ∀ f ∈ fs, outcomeBenign (world f)) :
    (processFiles tok d s world fs).1.filter isUploadCall = fs.map Event.uploadCall := by
  induction fs with
  | nil => rfl
  | cons f rest ih =>
    have hf : outcomeBenign (world f) := h f (List.mem_cons_self f rest)
    have hcrash := upload_file_crash_false f tok d s (world f) hf
    simp [processFiles, hcrash, List.filter_append, upload_file_filter_uploadCall,
      ih (fun g hg => h g (List.mem_cons_of_mem f hg))]

theorem processFiles_mem (tok : Option String) (d s : Bool)
    (world : String → FileOutcome) (fs : List String) (f : String) (e : Event)
    (h : ∀ g ∈ fs, outcomeBenign (world g)) (hf : f ∈ fs)
    (he : e ∈ (upload_file f tok d s (world f)).1) :
    e ∈ (processFiles tok d s world fs).1 := by
  induction fs with
  | nil => cases hf
  | cons g rest ih =>
    have hg : outcomeBenign (world g) := h g (List.mem_cons_self g rest)
    have hcrash := upload_file_crash_false g tok d s (world g) hg
    rcases List.mem_cons.mp hf with rfl | hmem
    · simp [processFiles, hcrash]
      exact Or.inl he
    · simp [processFiles, hcrash]
      exact Or.inr (ih (fun x hx => h x (List.mem_cons_of_mem g hx)) hmem)

theorem mainRest_batch (args : Args) (token : Option String) (ev0 : List Event)
    (display : Bool) (vnet : RequestResult) (world : String → FileOutcome)
    (hverify : truthy args.verify = false) (hfiles : args.files ≠ []) :
    mainRest args token ev0 display vnet world
      = (ev0 ++ (if display then [Event.setClipboardBackend "xclip"] else [])
          ++ (processFiles token args.dryrun args.silent world args.files).1,
         if (processFiles token args.dryrun args.silent world args.files).2 = true
           then 1 else 0) := by
  simp [mainRest, hverify, hfiles]

theorem mainRest_verify (args : Args) (token : Option String) (ev0 : List Event)
    (display : Bool) (vnet : RequestResult) (world : String → FileOutcome)
    (hverify : truthy args.verify = true) :
    mainRest args token ev0 display vnet world
      = (ev0 ++ (if display then [Event.setClipboardBackend "xclip"] else [])
          ++ (verify_upload (args.verify.getD "") token args.silent vnet).1,
         if (verify_upload (args.verify.getD "") token args.silent vnet).2 = true
           then 1 else 0) := by
  simp [mainRest, hverify]

theorem mainRest_noFiles (args : Args) (token : Option String) (ev0 : List Event)
    (display : Bool) (vnet : RequestResult) (world : String → FileOutcome)
    (hverify : truthy args.verify = false) (hfiles : args.files = []) :
    mainRest args token ev0 display vnet world
      = (ev0 ++ (if display then [Event.setClipboardBackend "xclip"] else [])
          ++ [Event.print "No files specified for upload. Use -h for help."], 1) := by
  simp [mainRest, hverify, hfiles]

/-- When the token resolves (an explicit truthy `-t`, or a readable
config file), `main` reaches its tail, and the prefix trace produced by
token resolution and clipboard setup contains no upload, network,
verifier or clipboard-write events. -/
theorem runMain_resolved (args : Args) (home : String) (cfg : ConfigState) (display : Bool)
    (vnet : RequestResult) (world : String → FileOutcome)
    (htok : truthy args.token = true ∨ (∃ obj, cfg = ConfigState.valid obj)) :
    ∃ (tok0 : Option String) (pre : List Event),
      runMain args home cfg display vnet world = mainRest args tok0 pre display vnet world
      ∧ pre.filter isUploadCall = []
      ∧ pre.filter isNetEffect = []
      ∧ pre.filter isVerifyCall = []
      ∧ pre.filter isHttpPost = [] := by
  cases ht : truthy args.token with
  | true =>
    by_cases hm : cfg = ConfigState.missing
    · refine ⟨some (args.token.getD ""),
        save_token (if truthy args.config then args.config.getD ""
                    else default_config_file home) (args.token.getD "") args.silent,
        ?_, ?_, ?_, ?_, ?_⟩
      · simp [runMain, ht, hm]
      all_goals cases args.silent <;>
        simp [save_token, isUploadCall, isNetEffect, isVerifyCall, isHttpPost]
    · refine ⟨some (args.token.getD ""), [], ?_, rfl, rfl, rfl, rfl⟩
      simp [runMain, ht, hm]
  | false =>
    rcases htok with ht' | ⟨obj, rfl⟩
    · rw [ht'] at ht; cases ht
    · refine ⟨pyGet obj "token",
        if args.silent then []
        else [Event.print ("Token loaded from " ++
                (if truthy args.config then args.config.getD ""
                 else default_config_file home) ++ ".")],
        ?_, ?_, ?_, ?_, ?_⟩
      · simp [runMain, ht, load_token]
      all_goals cases args.silent <;>
        simp [isUploadCall, isNetEffect, isVerifyCall, isHttpPost]

/-- When no truthy token is given and the config file is missing or
invalid, `main` exits 1 inside `load_token`. -/
theorem runMain_load_exit (args : Args) (home : String) (cfg : ConfigState) (display : Bool)
    (vnet : RequestResult) (world : String → FileOutcome)
    (ht : truthy args.token = false)
    (hcfg : cfg = ConfigState.missing ∨ cfg = ConfigState.invalidJson) :
    (runMain args home cfg display vnet world).2 = 1 := by
  rcases hcfg with rfl | rfl <;> simp [runMain, ht, load_token]

theorem mainRest_exit_eq (args : Args) (token : Option String) (ev0 : List Event)
    (display : Bool) (vnet : RequestResult) (world : String → FileOutcome)
    (hv : respParses vnet) (hw : ∀ f ∈ args.files, outcomeBenign (world f)) :
    (mainRest args token ev0 display vnet world).2
      = if truthy args.verify = true then 0 else if args.files = [] then 1 else 0 := by
  cases hverify : truthy args.verify with
  | true => simp [mainRest, hverify, verify_upload_crash_false _ _ _ _ hv]
  | false =>
    by_cases hfiles : args.files = []
    · simp [mainRest, hverify, hfiles]
    · simp [mainRest, hverify, hfiles,
        processFiles_crash_false _ _ _ _ _ hw]

/-! ### Claim theorems -/

/-- Claim C1: for a verification response with HTTP status 200 or 201
whose JSON body has `status = "successfully imported"` and an
`activity_id` field, `verify_upload` builds the URL
`https://runalyze.com/activity/{activity_id}`, prints it unless silent,
and copies it to the clipboard; for any other `status` value it prints
a verification-failure message naming that value and neither produces
nor copies a URL.  Both branches are stated as full-trace equalities. -/
theorem C1_verify_response_interpretation (q : String) (token : Option String) (silent : Bool)
    (r : HttpResponse) (obj : JsonObj)
    (h2xx : r.status_code = 200 ∨ r.status_code = 201)
    (hbody : r.jsonBody = some obj) :
    (∀ aid, pyGet obj "status" = some "successfully imported" →
        pyGet obj "activity_id" = some aid →
        verify_upload q token silent (RequestResult.success r)
          = (Event.verifyCall q ::
              (if silent then [] else [Event.print ("Verifying upload with queue_id: " ++ q)]) ++
              [Event.httpGet (API_ACTIVITIES_URL ++ "/" ++ q) token] ++
              (if silent then [] else [Event.print ("https://runalyze.com/activity/" ++ aid)]) ++
              [Event.clipboardCopy ("https://runalyze.com/activity/" ++ aid)], false))
    ∧ (∀ s, pyGet obj "status" = some s → s ≠ "successfully imported" →
        verify_upload q token silent (RequestResult.success r)
          = (Event.verifyCall q ::
              (if silent then [] else [Event.print ("Verifying upload with queue_id: " ++ q)]) ++
              [Event.httpGet (API_ACTIVITIES_URL ++ "/" ++ q) token,
               Event.print ("Verification failed. Status: " ++ s)], false)
        ∧ (∀ u, Event.clipboardCopy u ∉
              (verify_upload q token silent (RequestResult.success r)).1)) := by
  constructor
  · intro aid hs hid
    simp [verify_upload, h2xx, hbody, hs, hid, pyStr]
  · intro s hs hne
    constructor
    · simp [verify_upload, h2xx, hbody, hs, hne, pyStr]
    · intro u
      cases silent <;> simp [verify_upload, h2xx, hbody, hs, hne, pyStr]

/-- Witness for C1: a concrete 200 response with
`status = "successfully imported"` and `activity_id = "42"` yields the
URL `https://runalyze.com/activity/42`, printed and copied. -/
theorem C1_witness :
    verify_upload "q1" (some "tok") false
        (RequestResult.success
          ⟨200, some [("status", "successfully imported"), ("activity_id", "42")], "body"⟩)
      = (Event.verifyCall "q1" ::
          (if false then [] else [Event.print ("Verifying upload with queue_id: " ++ "q1")]) ++
          [Event.httpGet (API_ACTIVITIES_URL ++ "/" ++ "q1") (some "tok")] ++
          (if false then [] else [Event.print ("https://runalyze.com/activity/" ++ "42")]) ++
          [Event.clipboardCopy ("https://runalyze.com/activity/" ++ "42")], false) :=
  (C1_verify_response_interpretation "q1" (some "tok") false
      ⟨200, some [("status", "successfully imported"), ("activity_id", "42")], "body"⟩
      [("status", "successfully imported"), ("activity_id", "42")]
      (Or.inl rfl) rfl).1 "42" (by decide) (by decide)

/-- Claim C9: on a 200/201 verification response whose `status` is
`"successfully imported"` but whose `activity_id` field is absent,
`verify_upload` still succeeds, rendering the missing identifier as the
literal text `None`: it prints (unless silent) and copies
`https://runalyze.com/activity/None`. -/
theorem C9_missing_activity_id (q : String) (token : Option String) (silent : Bool)
    (r : HttpResponse) (obj : JsonObj)
    (h2xx : r.status_code = 200 ∨ r.status_code = 201)
    (hbody : r.jsonBody = some obj)
    (hstat : pyGet obj "status" = some "successfully imported")
    (hid : pyGet obj "activity_id" = none) :
    verify_upload q token silent (RequestResult.success r)
      = (Event.verifyCall q ::
          (if silent then [] else [Event.print ("Verifying upload with queue_id: " ++ q)]) ++
          [Event.httpGet (API_ACTIVITIES_URL ++ "/" ++ q) token] ++
          (if silent then [] else [Event.print "https://runalyze.com/activity/None"]) ++
          [Event.clipboardCopy "https://runalyze.com/activity/None"], false) := by
  simp [verify_upload, h2xx, hbody, hstat, hid, pyStr]

/-- Witness for C9: a concrete 200 response whose body is only
`{"status": "successfully imported"}` yields the URL
`https://runalyze.com/activity/None`. -/
theorem C9_witness :
    verify_upload "q2" (some "tok") false
        (RequestResult.success ⟨200, some [("status", "successfully imported")], "body"⟩)
      = (Event.verifyCall "q2" ::
          (if false then [] else [Event.print ("Verifying upload with queue_id: " ++ "q2")]) ++
          [Event.httpGet (API_ACTIVITIES_URL ++ "/" ++ "q2") (some "tok")] ++
          (if false then [] else [Event.print "https://runalyze.com/activity/None"]) ++
          [Event.clipboardCopy "https://runalyze.com/activity/None"], false) :=
  C9_missing_activity_id "q2" (some "tok") false
    ⟨200, some [("status", "successfully imported")], "body"⟩
    [("status", "successfully imported")]
    (Or.inl rfl) rfl (by decide) (by decide)

/-- Counterexample to claim C7: on a config file whose content is the
valid JSON object with no `token` key, `load_token` returns the null
credential `none` to the caller and does not terminate the process —
refuting the claim that the resolver always produces a non-empty token
or terminates. -/
theorem C7_counterexample :
    load_token "/tmp/config.json" (ConfigState.valid []) false
      = ([Event.print "Token loaded from /tmp/config.json."], LoadResult.token none) := by
  decide

/-- Claim C7 as amended: the resolver terminates with exit code 1 when
the config file is missing or not valid JSON; otherwise it returns the
config object's `token` field as-is, which may be absent (`none`) or
empty — it does not validate non-emptiness. -/
theorem C7_amended_resolver (config_file : String) (cfg : ConfigState) (silent : Bool) :
    (load_token config_file cfg silent).2 = LoadResult.exited 1
    ∨ ∃ obj, cfg = ConfigState.valid obj
        ∧ (load_token config_file cfg silent).2 = LoadResult.token (pyGet obj "token") := by
  cases cfg <;> simp [load_token]

/-- Claim C3: on an upload response with HTTP status 200 or 201,
`upload_file` extracts `queue_id` from the JSON body; when present
(modelled as Python-truthy: a non-empty string, e.g. `"abc123"`) the
verifier is entered with exactly that identifier exactly once, and when
absent a non-fatal `No queue_id returned` warning is printed, the
verifier is never entered, and no exception escapes. -/
theorem C3_queue_id_dispatch (f : String) (token : Option String) (silent : Bool)
    (r : HttpResponse) (vnet : RequestResult) (obj : JsonObj)
    (h2xx : r.status_code = 200 ∨ r.status_code = 201)
    (hbody : r.jsonBody = some obj) :
    (∀ q, pyGet obj "queue_id" = some q → q ≠ "" →
        (upload_file f token false silent (FileOutcome.response r vnet)).1.filter isVerifyCall
          = [Event.verifyCall q])
    ∧ (pyGet obj "queue_id" = none →
        (upload_file f token false silent (FileOutcome.response r vnet)).1.filter isVerifyCall
            = []
        ∧ Event.print "No queue_id returned. Unable to verify upload."
            ∈ (upload_file f token false silent (FileOutcome.response r vnet)).1
        ∧ (upload_file f token false silent (FileOutcome.response r vnet)).2 = false) := by
  constructor
  · intro q hq hne
    have htr : truthy (some q) = true := by simp [truthy, hne]
    cases silent <;>
      simp [upload_file, h2xx, hbody, htr, hq, pyStr, isVerifyCall, List.filter_append,
        List.filter_cons, verify_upload_filter_verifyCall]
  · intro hq
    have htr : truthy (pyGet obj "queue_id") = false := by simp [hq, truthy]
    refine ⟨?_, ?_, ?_⟩ <;>
      cases silent <;> simp [upload_file, h2xx, hbody, htr, isVerifyCall]

/-- Witness for C3: a 201 upload response with body
`{"queue_id": "abc123"}` makes exactly one verifier entry, with
identifier `"abc123"`. -/
theorem C3_witness :
    (upload_file "a/b.fit" (some "tok") false false
        (FileOutcome.response ⟨201, some [("queue_id", "abc123")], "body"⟩
          (RequestResult.requestException "offline"))).1.filter isVerifyCall
      = [Event.verifyCall "abc123"] :=
  (C3_queue_id_dispatch "a/b.fit" (some "tok") false
      ⟨201, some [("queue_id", "abc123")], "body"⟩
      (RequestResult.requestException "offline")
      [("queue_id", "abc123")]
      (Or.inr rfl) rfl).1 "abc123" (by decide) (by decide)

theorem error_print_ne_upload_print (f : String) :
    "Error: File not found: " ++ f ≠ "Uploading file: " ++ f := by
  intro h
  have h2 := congrArg String.length h
  rw [String.length_append, String.length_append] at h2
  have e1 : ("Error: File not found: ").length = 23 := rfl
  have e2 : ("Uploading file: ").length = 16 := rfl
  rw [e1, e2] at h2
  omega

/-- Claim C10: in dry-run mode `upload_file` returns before opening the
file, so its behaviour is identical for every world outcome — a missing
file is indistinguishable from an existing one, no file-not-found error
is reported, and with `--silent` it prints nothing at all. -/
theorem C10_dryrun_ignores_file (f : String) (token : Option String) (s : Bool)
    (w w2 : FileOutcome) :
    upload_file f token true s w = upload_file f token true s w2
    ∧ Event.print ("Error: File not found: " ++ f) ∉ (upload_file f token true s w).1
    ∧ (s = true → (upload_file f token true s w).1.filter isPrint = []) := by
  refine ⟨rfl, ?_, ?_⟩
  · cases s <;> simp [upload_file, isPrint, error_print_ne_upload_print f]
  · intro hs
    subst hs
    simp [upload_file, isPrint]

/-- Witness for C10: with dry-run and silent set, a nonexistent file
and a file whose upload would get a 404 produce identical traces, and
nothing is printed. -/
theorem C10_witness :
    upload_file "ghost.fit" (some "tok") true true FileOutcome.notFound
      = upload_file "ghost.fit" (some "tok") true true
          (FileOutcome.response ⟨404, none, "nf"⟩ (RequestResult.requestException "e"))
    ∧ (upload_file "ghost.fit" (some "tok") true true FileOutcome.notFound).1.filter isPrint
        = [] :=
  ⟨(C10_dryrun_ignores_file "ghost.fit" (some "tok") true FileOutcome.notFound
      (FileOutcome.response ⟨404, none, "nf"⟩ (RequestResult.requestException "e"))).1,
   (C10_dryrun_ignores_file "ghost.fit" (some "tok") true FileOutcome.notFound
      FileOutcome.notFound).2.2 rfl⟩

theorem mainRest_mem_ev0 (args : Args) (token : Option String) (ev0 : List Event)
    (display : Bool) (vnet : RequestResult) (world : String → FileOutcome)
    (e : Event) (he : e ∈ ev0) :
    e ∈ (mainRest args token ev0 display vnet world).1 := by
  cases hverify : truthy args.verify with
  | true =>
    rw [mainRest_verify args token ev0 display vnet world hverify]
    exact List.mem_append_left _ (List.mem_append_left _ he)
  | false =>
    by_cases hfiles : args.files = []
    · rw [mainRest_noFiles args token ev0 display vnet world hverify hfiles]
      exact List.mem_append_left _ (List.mem_append_left _ he)
    · rw [mainRest_batch args token ev0 display vnet world hverify hfiles]
      exact List.mem_append_left _ (List.mem_append_left _ he)

/-- Claim C2: running with `-t t` (a truthy token) against a config
path where no file exists writes the config object `{"token": t}`
at that path after creating its parent directories, and a later
`load_token` on that written object returns exactly `t`. -/
theorem C2_token_roundtrip (t path home : String) (ht : t ≠ "") (hp : path ≠ "")
    (fs : List String) (d s s2 display : Bool) (v : Option String)
    (vnet : RequestResult) (world : String → FileOutcome) :
    Event.writeConfig path [("token", t)]
        ∈ (runMain ⟨fs, d, s, some t, some path, v⟩ home ConfigState.missing
            display vnet world).1
    ∧ Event.mkdirParents (parentDir path)
        ∈ (runMain ⟨fs, d, s, some t, some path, v⟩ home ConfigState.missing
            display vnet world).1
    ∧ (load_token path (ConfigState.valid [("token", t)]) s2).2 = LoadResult.token (some t) := by
  have htt : truthy (some t) = true := by simp [truthy, ht]
  have hpt : truthy (some path) = true := by simp [truthy, hp]
  have hrw : runMain ⟨fs, d, s, some t, some path, v⟩ home ConfigState.missing
        display vnet world
      = mainRest ⟨fs, d, s, some t, some path, v⟩ (some t) (save_token path t s)
          display vnet world := by
    simp [runMain, htt, hpt]
  refine ⟨?_, ?_, ?_⟩
  · rw [hrw]
    exact mainRest_mem_ev0 _ _ _ _ _ _ _ (by cases s <;> simp [save_token])
  · rw [hrw]
    exact mainRest_mem_ev0 _ _ _ _ _ _ _ (by cases s <;> simp [save_token])
  · simp [load_token, pyGet]

/-- Witness for C2 at token `"tok"` and path `"/tmp/cfg.json"`. -/
theorem C2_witness :
    Event.writeConfig "/tmp/cfg.json" [("token", "tok")]
        ∈ (runMain ⟨["a.fit"], false, false, some "tok", some "/tmp/cfg.json", none⟩
            "/home/u" ConfigState.missing false (RequestResult.requestException "offline")
            (fun _ => FileOutcome.notFound)).1
    ∧ (load_token "/tmp/cfg.json" (ConfigState.valid [("token", "tok")]) false).2
        = LoadResult.token (some "tok") :=
  ⟨(C2_token_roundtrip "tok" "/tmp/cfg.json" "/home/u" (by decide) (by decide)
      ["a.fit"] false false false false none (RequestResult.requestException "offline")
      (fun _ => FileOutcome.notFound)).1,
   (C2_token_roundtrip "tok" "/tmp/cfg.json" "/home/u" (by decide) (by decide)
      ["a.fit"] false false false false none (RequestResult.requestException "offline")
      (fun _ => FileOutcome.notFound)).2.2⟩

theorem upload_file_mem_notFound (f : String) (token : Option String) (s : Bool) :
    Event.print ("Error: File not found: " ++ f)
      ∈ (upload_file f token false s FileOutcome.notFound).1 := by
  cases s <;> simp [upload_file]

theorem upload_file_mem_netError (f e : String) (token : Option String) (s : Bool) :
    Event.print ("An error occurred: " ++ e)
      ∈ (upload_file f token false s (FileOutcome.netError e)).1 := by
  cases s <;> simp [upload_file]

theorem upload_file_mem_httpFail (f : String) (token : Option String) (s : Bool)
    (r : HttpResponse) (vna : RequestResult)
    (h : ¬(r.status_code = 200 ∨ r.status_code = 201)) :
    Event.print ("Failed to upload " ++ f ++ ". HTTP Status Code: " ++ toString r.status_code)
      ∈ (upload_file f token false s (FileOutcome.response r vna)).1 := by
  cases s <;> simp [upload_file, h]

/-- Claim C4: in a batch run (files given, no `--verify`, no dry-run,
resolvable token), when every file's outcome is one of the caught
failure kinds or a well-formed success, each failure is reported to the
console, every file in the list is still processed exactly once and in
order, and the exit code stays 0. -/
theorem C4_batch_isolation (args : Args) (home : String) (cfg : ConfigState) (display : Bool)
    (vnet : RequestResult) (world : String → FileOutcome)
    (hw : ∀ f ∈ args.files, outcomeBenign (world f))
    (hverify : truthy args.verify = false)
    (hfiles : args.files ≠ [])
    (hdry : args.dryrun = false)
    (htok : truthy args.token = true ∨ (∃ obj, cfg = ConfigState.valid obj)) :
    (runMain args home cfg display vnet world).2 = 0
    ∧ (runMain args home cfg display vnet world).1.filter isUploadCall
        = args.files.map Event.uploadCall
    ∧ (∀ f ∈ args.files, world f = FileOutcome.notFound →
        Event.print ("Error: File not found: " ++ f)
          ∈ (runMain args home cfg display vnet world).1)
    ∧ (∀ f ∈ args.files, ∀ e, world f = FileOutcome.netError e →
        Event.print ("An error occurred: " ++ e)
          ∈ (runMain args home cfg display vnet world).1)
    ∧ (∀ f ∈ args.files, ∀ r vna, world f = FileOutcome.response r vna →
        ¬(r.status_code = 200 ∨ r.status_code = 201) →
        Event.print ("Failed to upload " ++ f ++ ". HTTP Status Code: " ++
            toString r.status_code)
          ∈ (runMain args home cfg display vnet world).1) := by
  obtain ⟨tok0, pre, heq, hu, hn, hvc, hhp⟩ :=
    runMain_resolved args home cfg display vnet world htok
  rw [heq, mainRest_batch args tok0 pre display vnet world hverify hfiles]
  refine ⟨?_, ?_, ?_, ?_, ?_⟩
  · simp [processFiles_crash_false _ _ _ _ _ hw]
  · cases display <;>
      simp [List.filter_append, hu, isUploadCall,
        processFiles_filter_uploadCall _ _ _ _ _ hw]
  · intro f hf hnf
    refine List.mem_append_right _ ?_
    refine processFiles_mem tok0 args.dryrun args.silent world args.files f _ hw hf ?_
    rw [hnf, hdry]
    exact upload_file_mem_notFound f tok0 args.silent
  · intro f hf e hne
    refine List.mem_append_right _ ?_
    refine processFiles_mem tok0 args.dryrun args.silent world args.files f _ hw hf ?_
    rw [hne, hdry]
    exact upload_file_mem_netError f e tok0 args.silent
  · intro f hf r vna hre hcode
    refine List.mem_append_right _ ?_
    refine processFiles_mem tok0 args.dryrun args.silent world args.files f _ hw hf ?_
    rw [hre, hdry]
    exact upload_file_mem_httpFail f tok0 args.silent r vna hcode

/-- Witness for C4: two files, one missing locally and one rejected
with HTTP 500 — both are processed, both failures are reported, and the
exit code is 0. -/
theorem C4_witness :
    (runMain ⟨["a.fit", "b.fit"], false, false, some "tok", none, none⟩ "/home/u"
        ConfigState.missing false (RequestResult.requestException "offline")
        (fun f => if f = "a.fit" then FileOutcome.notFound
                  else FileOutcome.response ⟨500, none, "boom"⟩
                         (RequestResult.requestException "offline"))).2 = 0
    ∧ (runMain ⟨["a.fit", "b.fit"], false, false, some "tok", none, none⟩ "/home/u"
        ConfigState.missing false (RequestResult.requestException "offline")
        (fun f => if f = "a.fit" then FileOutcome.notFound
                  else FileOutcome.response ⟨500, none, "boom"⟩
                         (RequestResult.requestException "offline"))).1.filter isUploadCall
        = [Event.uploadCall "a.fit", Event.uploadCall "b.fit"] := by
  have h := C4_batch_isolation ⟨["a.fit", "b.fit"], false, false, some "tok", none, none⟩
    "/home/u" ConfigState.missing false (RequestResult.requestException "offline")
    (fun f => if f = "a.fit" then FileOutcome.notFound
              else FileOutcome.response ⟨500, none, "boom"⟩
                     (RequestResult.requestException "offline"))
    (by intro f hf
        fin_cases hf <;> simp [outcomeBenign, respParses])
    (by decide) (by decide) rfl (Or.inl (by decide))
  exact ⟨h.1, h.2.1⟩

/-- Claim C5: the process exits 1 exactly when the token is not
supplied (Python-falsy `-t`) and the config file is missing or invalid
JSON, or when no files are given and `--verify` (truthy) is not used —
with the usage hint printed in the latter case; in all other cases,
verification failures included, the exit code is 0.  The hypotheses
confine the oracles to responses whose bodies parse when the code
parses them, so no uncaught exception occurs. -/
theorem C5_exit_codes (args : Args) (home : String) (cfg : ConfigState) (display : Bool)
    (vnet : RequestResult) (world : String → FileOutcome)
    (hv : respParses vnet) (hw : ∀ f ∈ args.files, outcomeBenign (world f)) :
    ((runMain args home cfg display vnet world).2 = 1 ↔
      ((truthy args.token = false
          ∧ (cfg = ConfigState.missing ∨ cfg = ConfigState.invalidJson))
        ∨ (truthy args.verify = false ∧ args.files = [])))
    ∧ ((runMain args home cfg display vnet world).2 = 0
        ∨ (runMain args home cfg display vnet world).2 = 1)
    ∧ (truthy args.verify = false → args.files = [] →
        (truthy args.token = true ∨ (∃ obj, cfg = ConfigState.valid obj)) →
        Event.print "No files specified for upload. Use -h for help."
          ∈ (runMain args home cfg display vnet world).1) := by
  have main2 : ∀ _ : truthy args.token = true ∨ (∃ obj, cfg = ConfigState.valid obj),
      (runMain args home cfg display vnet world).2
        = if truthy args.verify = true then 0 else if args.files = [] then 1 else 0 := by
    intro htok
    obtain ⟨tok0, pre, heq, _, _, _, _⟩ :=
      runMain_resolved args home cfg display vnet world htok
    rw [heq]
    exact mainRest_exit_eq args tok0 pre display vnet world hv hw
  refine ⟨?_, ?_, ?_⟩
  · cases ht : truthy args.token with
    | true =>
      rw [main2 (Or.inl ht)]
      cases hverify : truthy args.verify with
      | true => simp [ht, hverify]
      | false => by_cases hfiles : args.files = [] <;> simp [ht, hverify, hfiles]
    | false =>
      cases cfg with
      | missing =>
        simp [runMain_load_exit args home ConfigState.missing display vnet world ht
          (Or.inl rfl), ht]
      | invalidJson =>
        simp [runMain_load_exit args home ConfigState.invalidJson display vnet world ht
          (Or.inr rfl), ht]
      | valid obj =>
        rw [main2 (Or.inr ⟨obj, rfl⟩)]
        cases hverify : truthy args.verify with
        | true => simp [ht, hverify]
        | false => by_cases hfiles : args.files = [] <;> simp [ht, hverify, hfiles]
  · cases ht : truthy args.token with
    | true =>
      rw [main2 (Or.inl ht)]
      cases hverify : truthy args.verify with
      | true => simp
      | false => by_cases hfiles : args.files = [] <;> simp [hfiles]
    | false =>
      cases cfg with
      | missing =>
        exact Or.inr (runMain_load_exit args home ConfigState.missing display vnet world ht
          (Or.inl rfl))
      | invalidJson =>
        exact Or.inr (runMain_load_exit args home ConfigState.invalidJson display vnet world ht
          (Or.inr rfl))
      | valid obj =>
        rw [main2 (Or.inr ⟨obj, rfl⟩)]
        cases hverify : truthy args.verify with
        | true => simp
        | false => by_cases hfiles : args.files = [] <;> simp [hfiles]
  · intro hverify hfiles htok
    obtain ⟨tok0, pre, heq, _, _, _, _⟩ :=
      runMain_resolved args home cfg display vnet world htok
    rw [heq, mainRest_noFiles args tok0 pre display vnet world hverify hfiles]
    exact List.mem_append_right _ (List.mem_singleton.mpr rfl)

/-- Witness for C5: with no `-t` and a missing config file the exit
code is 1; with a valid config, no files and no `--verify` the usage
hint is printed. -/
theorem C5_witness :
    (runMain ⟨["a.fit"], false, false, none, none, none⟩ "/home/u" ConfigState.missing
        false (RequestResult.requestException "offline") (fun _ => FileOutcome.notFound)).2 = 1
    ∧ Event.print "No files specified for upload. Use -h for help."
        ∈ (runMain ⟨[], false, false, none, none, none⟩ "/home/u"
            (ConfigState.valid [("token", "t")]) false
            (RequestResult.requestException "offline") (fun _ => FileOutcome.notFound)).1 :=
  ⟨((C5_exit_codes ⟨["a.fit"], false, false, none, none, none⟩ "/home/u" ConfigState.missing
      false (RequestResult.requestException "offline") (fun _ => FileOutcome.notFound)
      trivial (fun _ _ => trivial)).1).mpr (Or.inl ⟨rfl, Or.inl rfl⟩),
   (C5_exit_codes ⟨[], false, false, none, none, none⟩ "/home/u"
      (ConfigState.valid [("token", "t")]) false
      (RequestResult.requestException "offline") (fun _ => FileOutcome.notFound)
      trivial (fun _ _ => trivial)).2.2 rfl rfl (Or.inr ⟨[("token", "t")], rfl⟩)⟩

theorem upload_file_dryrun (f : String) (token : Option String) (s : Bool) (w : FileOutcome) :
    upload_file f token true s w
      = (Event.uploadCall f ::
          (if s then [] else [Event.print ("Uploading file: " ++ f)]), false) := by
  simp [upload_file]

theorem processFiles_dryrun_filter_netEffect (token : Option String) (s : Bool)
    (world : String → FileOutcome) (fs : List String) :
    (processFiles token true s world fs).1.filter isNetEffect = [] := by
  induction fs with
  | nil => rfl
  | cons f rest ih =>
    cases s <;>
      simp [processFiles, upload_file_dryrun, isNetEffect, List.filter_append, ih]

theorem processFiles_dryrun_crash (token : Option String) (s : Bool)
    (world : String → FileOutcome) (fs : List String) :
    (processFiles token true s world fs).2 = false := by
  induction fs with
  | nil => rfl
  | cons f rest ih => simp [processFiles, upload_file_dryrun, ih]

/-- Claim C6: a dry-run batch (files given, no `--verify`, token
resolvable) performs zero network calls and none of the upload side
effects — no HTTP request, no verifier entry, no clipboard write — and
exits with code 0. -/
theorem C6_dryrun_no_effects (args : Args) (home : String) (cfg : ConfigState) (display : Bool)
    (vnet : RequestResult) (world : String → FileOutcome)
    (hdry : args.dryrun = true)
    (hverify : truthy args.verify = false)
    (hfiles : args.files ≠ [])
    (htok : truthy args.token = true ∨ (∃ obj, cfg = ConfigState.valid obj)) :
    (runMain args home cfg display vnet world).2 = 0
    ∧ (runMain args home cfg display vnet world).1.filter isNetEffect = [] := by
  obtain ⟨tok0, pre, heq, hu, hn, hvc, hhp⟩ :=
    runMain_resolved args home cfg display vnet world htok
  rw [heq, mainRest_batch args tok0 pre display vnet world hverify hfiles, hdry]
  constructor
  · simp [processFiles_dryrun_crash]
  · cases display <;>
      simp [List.filter_append, hn, isNetEffect, processFiles_dryrun_filter_netEffect]

/-- Witness for C6: a dry run on two files, one of which does not
exist, makes no network call and exits 0. -/
theorem C6_witness :
    (runMain ⟨["a.fit", "ghost.fit"], true, false, some "tok", none, none⟩ "/home/u"
        ConfigState.missing true (RequestResult.requestException "offline")
        (fun _ => FileOutcome.notFound)).2 = 0
    ∧ (runMain ⟨["a.fit", "ghost.fit"], true, false, some "tok", none, none⟩ "/home/u"
        ConfigState.missing true (RequestResult.requestException "offline")
        (fun _ => FileOutcome.notFound)).1.filter isNetEffect = [] :=
  C6_dryrun_no_effects ⟨["a.fit", "ghost.fit"], true, false, some "tok", none, none⟩
    "/home/u" ConfigState.missing true (RequestResult.requestException "offline")
    (fun _ => FileOutcome.notFound) rfl (by decide) (by decide) (Or.inl (by decide))

/-- Claim C8: with a truthy `--verify` queue id and a resolvable
token, verification is entered exactly once with that id, no file
upload is attempted even when positional files were also given, and the
process exits 0 for every verification outcome that does not raise an
uncaught exception. -/
theorem C8_standalone_verify (args : Args) (home : String) (cfg : ConfigState) (display : Bool)
    (vnet : RequestResult) (world : String → FileOutcome)
    (hq : truthy args.verify = true)
    (hv : respParses vnet)
    (htok : truthy args.token = true ∨ (∃ obj, cfg = ConfigState.valid obj)) :
    (runMain args home cfg display vnet world).2 = 0
    ∧ (runMain args home cfg display vnet world).1.filter isVerifyCall
        = [Event.verifyCall (args.verify.getD "")]
    ∧ (runMain args home cfg display vnet world).1.filter isUploadCall = []
    ∧ (runMain args home cfg display vnet world).1.filter isHttpPost = [] := by
  obtain ⟨tok0, pre, heq, hu, hn, hvc, hhp⟩ :=
    runMain_resolved args home cfg display vnet world htok
  rw [heq, mainRest_verify args tok0 pre display vnet world hq]
  refine ⟨?_, ?_, ?_, ?_⟩
  · simp [verify_upload_crash_false _ _ _ _ hv]
  · cases display <;>
      simp [List.filter_append, hvc, isVerifyCall, verify_upload_filter_verifyCall]
  · cases display <;>
      simp [List.filter_append, hu, isUploadCall, verify_upload_filter_uploadCall]
  · cases display <;>
      simp [List.filter_append, hhp, isHttpPost, verify_upload_filter_httpPost]

/-- Witness for C8: `--verify qid` with files also given and a failing
verification (HTTP 404) still runs the verifier once, uploads nothing,
and exits 0. -/
theorem C8_witness :
    (runMain ⟨["a.fit"], false, false, none, none, some "qid"⟩ "/home/u"
        (ConfigState.valid [("token", "t")]) false
        (RequestResult.success ⟨404, none, "not found"⟩)
        (fun _ => FileOutcome.notFound)).2 = 0
    ∧ (runMain ⟨["a.fit"], false, false, none, none, some "qid"⟩ "/home/u"
        (ConfigState.valid [("token", "t")]) false
        (RequestResult.success ⟨404, none, "not found"⟩)
        (fun _ => FileOutcome.notFound)).1.filter isUploadCall = [] := by
  have h := C8_standalone_verify ⟨["a.fit"], false, false, none, none, some "qid"⟩
    "/home/u" (ConfigState.valid [("token", "t")]) false
    (RequestResult.success ⟨404, none, "not found"⟩)
    (fun _ => FileOutcome.notFound) (by decide)
    (by intro h2; rcases h2 with h2 | h2 <;> simp at h2)
    (Or.inr ⟨[("token", "t")], rfl⟩)
  exact ⟨h.1, h.2.2.1⟩

end Runalyze
